import Mathlib

/-!
Verification of the DATABASE-TRANSITION-VALIDATOR core against its
natural-language specification.

The Python source is shallowly embedded: each Lean definition mirrors one
Python function or dataclass from the repository (file and line references
are given in the doc comments).  Machine integers are modelled by Nat/Int,
Python float arithmetic on exactly-representable values by Rat, Python sets
by Finset or by duplicate-free lists, and fallible code by Except/Option.
-/

/-! ## Severity lattice — src/data_class/ValidationStatus.py -/

/-- `ValidationStatus` enum (ValidationStatus.py lines 12-18). -/
inductive ValidationStatus
  | PASS
  | FAIL
  | WARNING
  | SKIP
deriving DecidableEq, BEq, Repr, Fintype

/-- `SEVERITY_ORDER` side table (ValidationStatus.py lines 20-25):
SKIP is lowest severity, then PASS, WARNING, FAIL. -/
def severityOrder : ValidationStatus → Nat
  | .SKIP => 0
  | .PASS => 1
  | .WARNING => 2
  | .FAIL => 3

/-- `ValidationStatus.raise_status_level_to` (ValidationStatus.py lines 32-42):
return `new_status` when its severity-order value is strictly greater than
the current one, otherwise keep `self`. -/
def raise_status_level_to (self_ new_status : ValidationStatus) : ValidationStatus :=
  if severityOrder new_status > severityOrder self_ then new_status else self_

/-! ## Validation issues and per-table data results —
src/data_class/ValidationIssue.py, src/data_class/DataMatchValidationResult.py -/

/-- `ValidationIssue` dataclass: kind tag, description, severity and the
observed source/target values (modelled as optional integers, which is all
the embedded call sites store there). -/
structure ValidationIssue where
  issue_type : String
  description : String
  severity : ValidationStatus
  source_value : Option Int := none
  target_value : Option Int := none
deriving DecidableEq, Repr

/-- `DataMatchValidationResult` dataclass (DataMatchValidationResult.py
lines 13-40), restricted to the fields the verified operations read or
write. -/
structure DataMatchValidationResult where
  table_name : String
  source_table : String
  target_table : String
  key_columns : List String
  unique_data_mapping_id : String
  status : ValidationStatus
  group : Option String := none
  source_count : Nat := 0
  target_count : Nat := 0
  row_count_validation_issues : List ValidationIssue := []
  data_match_validation_issues : List ValidationIssue := []
deriving DecidableEq, Repr

/-! ## Run-level table status — src/data_class/OverallValidationResult.py -/

/-- `OverallValidationResult.overall_status_table_result`
(OverallValidationResult.py lines 41-63): SKIP on an empty result list,
otherwise FAIL when some table failed, else WARNING when some table warned,
else PASS. -/
def overall_status_table_result
    (data_match_validation_result : List DataMatchValidationResult) : ValidationStatus :=
  if data_match_validation_result.isEmpty then .SKIP
  else
    let failed_tables :=
      data_match_validation_result.filter (fun r => r.status == ValidationStatus.FAIL)
    let warning_tables :=
      data_match_validation_result.filter (fun r => r.status == ValidationStatus.WARNING)
    if !failed_tables.isEmpty then .FAIL
    else if !warning_tables.isEmpty then .WARNING
    else .PASS

/-! ## Theorems for the severity lattice (claim C4) -/

/-- C4: `raise_status_level_to` returns the more severe of its two arguments
under the total order SKIP < PASS < WARNING < FAIL, and is commutative,
idempotent and associative over the four statuses, with FAIL absorbing. -/
theorem raise_status_level_total_order :
    (∀ a b : ValidationStatus,
      severityOrder (raise_status_level_to a b) = max (severityOrder a) (severityOrder b))
  ∧ (∀ a b : ValidationStatus,
      raise_status_level_to a b = a ∨ raise_status_level_to a b = b)
  ∧ (∀ a b : ValidationStatus,
      raise_status_level_to a b = raise_status_level_to b a)
  ∧ (∀ a : ValidationStatus, raise_status_level_to a a = a)
  ∧ (∀ a b c : ValidationStatus,
      raise_status_level_to (raise_status_level_to a b) c =
        raise_status_level_to a (raise_status_level_to b c))
  ∧ (∀ a : ValidationStatus,
      raise_status_level_to a .FAIL = .FAIL ∧ raise_status_level_to .FAIL a = .FAIL) := by
  refine ⟨?_, ?_, ?_, ?_, ?_, ?_⟩ <;> decide

/-! ## Theorems for the run-level table status (claim C10) -/

/-- C10: the run-level table status is SKIP exactly on an empty result list;
on a non-empty list it is FAIL if any table failed, else WARNING if any
table warned, else PASS — so a run whose tables are all SKIP reports PASS. -/
theorem overall_table_status_spec (results : List DataMatchValidationResult) :
    (overall_status_table_result results = .SKIP ↔ results = [])
  ∧ (results ≠ [] → overall_status_table_result results =
      (if results.any (fun r => r.status == ValidationStatus.FAIL) then .FAIL
       else if results.any (fun r => r.status == ValidationStatus.WARNING) then .WARNING
       else .PASS))
  ∧ (results ≠ [] → (∀ r ∈ results, r.status = .SKIP) →
      overall_status_table_result results = .PASS) := by
  have key : ∀ (p : DataMatchValidationResult → Bool) (l : List DataMatchValidationResult),
      (List.filter p l).isEmpty = !(l.any p) := by
    intro p l
    induction l with
    | nil => rfl
    | cons x xs ih =>
      by_cases hx : p x
      · simp [List.filter_cons, hx]
      · simp [List.filter_cons, hx, ih]
  refine ⟨?_, ?_, ?_⟩
  · rcases results with _ | ⟨r, rs⟩
    · simp [overall_status_table_result]
    · unfold overall_status_table_result
      simp only [key, List.isEmpty_cons, Bool.not_not]
      constructor
      · intro h
        by_cases hf : (r :: rs).any (fun r => r.status == ValidationStatus.FAIL)
        · simp [hf] at h
        · by_cases hw : (r :: rs).any (fun r => r.status == ValidationStatus.WARNING)
          · simp [hf, hw] at h
          · simp [hf, hw] at h
      · intro h
        exact absurd h (List.cons_ne_nil r rs)
  · intro hne
    rcases results with _ | ⟨r, rs⟩
    · exact absurd rfl hne
    · unfold overall_status_table_result
      simp only [key, List.isEmpty_cons, Bool.not_not]
      simp
  · intro hne hall
    have hf : (results.any fun r => r.status == ValidationStatus.FAIL) = false := by
      rw [List.any_eq_false]
      intro x hx
      rw [hall x hx]
      decide
    have hw : (results.any fun r => r.status == ValidationStatus.WARNING) = false := by
      rw [List.any_eq_false]
      intro x hx
      rw [hall x hx]
      decide
    rcases results with _ | ⟨r, rs⟩
    · exact absurd rfl hne
    · unfold overall_status_table_result
      simp only [key, List.isEmpty_cons, Bool.not_not]
      simp [hf, hw]

/-- A concrete all-SKIP result used to witness C10. -/
def skipOnlyResult : DataMatchValidationResult :=
  { table_name := "t", source_table := "t", target_table := "t",
    key_columns := [], unique_data_mapping_id := "t|t||",
    status := .SKIP }

/-- C10 witness: on the one-element list whose single table is SKIP, the
run-level status is PASS (and it is not SKIP, since the list is non-empty). -/
theorem overall_table_status_spec_witness :
    overall_status_table_result [skipOnlyResult] = .PASS ∧
    ¬ overall_status_table_result [skipOnlyResult] = .SKIP := by
  have h := overall_table_status_spec [skipOnlyResult]
  refine ⟨h.2.2 (by simp) ?_, ?_⟩
  · intro r hr
    simp only [List.mem_singleton] at hr
    rw [hr]
    rfl
  · intro hs
    exact absurd (h.1.mp hs) (by simp)

/-! ## Row-count severity — src/DatabaseTransitionValidator.py
`_validate_single_table_data`, lines 834-888 -/

/-- Percentage difference of the row counts
(DatabaseTransitionValidator.py lines 842-848): 100.0 when the source count
is zero, otherwise `-(source_count - target_count) / source_count * 100.0`.
The Python float arithmetic is modelled exactly in the rationals; every
value the theorems below evaluate it at is exactly representable in both. -/
def percent_diff (source_count target_count : Nat) : ℚ :=
  if source_count = 0 then 100
  else -(((source_count : ℚ) - (target_count : ℚ)) / (source_count : ℚ) * 100)

/-- Python `%.1f` formatting, used in the issue-kind f-strings
(lines 863, 867, 872).  Exact for the one-decimal-digit values at which the
theorems evaluate it; ties and negative-zero cases of binary floats do not
arise there. -/
def formatFixed1 (q : ℚ) : String :=
  let m : Int := ⌊q * 10 + 1 / 2⌋
  let sign := if m < 0 then "-" else ""
  sign ++ toString (m.natAbs / 10) ++ "." ++ toString (m.natAbs % 10)

/-- Row-count mismatch check of `_validate_single_table_data`
(DatabaseTransitionValidator.py lines 834-888).  Returns the recorded
severity and issue kind, or `none` when no issue is recorded (a count is
unknown, or the counts are equal).  `failThr` is the `failure` threshold and
`succThr` the `success` threshold from the settings (lines 850-859). -/
def rowCountCheck (source_count target_count : Option Nat)
    (failThr succThr : ℚ) : Option (ValidationStatus × String) :=
  match source_count, target_count with
  | some s, some t =>
    if s ≠ t then
      let pd := percent_diff s t
      if |pd| ≤ succThr then
        some (.PASS, "row_count_mismatch<=" ++ formatFixed1 succThr ++ "%")
      else if |pd| > failThr then
        if s < t then
          some (.WARNING, "target_has_more_" ++ formatFixed1 pd ++ "%_data")
        else
          some (.FAIL, "row_count_mismatch>" ++ formatFixed1 failThr ++ "%")
      else
        some (.WARNING, "row_count_mismatch")
    else none
  | _, _ => none

/-! ## Theorems for the row-count severity bands (claims C1 and C6) -/

/-- C1 counterexample: the claim says the scenario sourceCount=1000,
targetCount=950, failThreshold=5%, successThreshold=1% yields FAIL with
issue kind `row_count_mismatch>5.0%`, and that `|%diff| > failThreshold`
always yields FAIL.  In the code the FAIL band is strict, so the scenario's
exactly-5.0% difference lands in the WARNING band with plain kind
`row_count_mismatch`; and when the target count exceeds the source count the
FAIL band is downgraded to WARNING, refuting the unconditional FAIL band. -/
theorem row_count_scenario_counterexample :
    rowCountCheck (some 1000) (some 950) 5 1 = some (.WARNING, "row_count_mismatch")
  ∧ rowCountCheck (some 1000) (some 950) 5 1 ≠
      some (.FAIL, "row_count_mismatch>" ++ formatFixed1 5 ++ "%")
  ∧ |percent_diff 800 1000| > 5
  ∧ (rowCountCheck (some 800) (some 1000) 5 1).map Prod.fst ≠ some .FAIL := by
  have h1 : ¬ (|percent_diff 1000 950| ≤ (1 : ℚ)) := by unfold percent_diff; norm_num
  have h2 : ¬ (|percent_diff 1000 950| > (5 : ℚ)) := by unfold percent_diff; norm_num
  have h3 : ¬ (|percent_diff 800 1000| ≤ (1 : ℚ)) := by unfold percent_diff; norm_num
  have h4 : |percent_diff 800 1000| > (5 : ℚ) := by unfold percent_diff; norm_num
  have hmain : rowCountCheck (some 1000) (some 950) 5 1 =
      some (.WARNING, "row_count_mismatch") := by
    simp [rowCountCheck, h1, h2]
  have hdown : rowCountCheck (some 800) (some 1000) 5 1 =
      some (.WARNING, "target_has_more_" ++ formatFixed1 (percent_diff 800 1000) ++ "%_data") := by
    simp [rowCountCheck, h3, h4]
  refine ⟨hmain, ?_, h4, ?_⟩
  · rw [hmain]
    simp
  · rw [hdown]
    simp

/-- C1 amended: with thresholds `succThr < |%diff|` bands — |%diff| ≤
successThreshold gives PASS; |%diff| > failThreshold gives FAIL unless the
target count exceeds the source count, in which case WARNING; anything in
between gives WARNING with issue kind `row_count_mismatch`.  The claimed
scenario (1000 vs 950 at thresholds 5%/1%) falls in that middle band:
severity WARNING, issue kind `row_count_mismatch`. -/
theorem row_count_severity_bands (s t : Nat) (failThr succThr : ℚ) (hne : s ≠ t) :
    (|percent_diff s t| ≤ succThr →
      (rowCountCheck (some s) (some t) failThr succThr).map Prod.fst = some .PASS)
  ∧ (succThr < |percent_diff s t| → |percent_diff s t| > failThr →
      (rowCountCheck (some s) (some t) failThr succThr).map Prod.fst =
        some (if s < t then .WARNING else .FAIL))
  ∧ (succThr < |percent_diff s t| → |percent_diff s t| ≤ failThr →
      rowCountCheck (some s) (some t) failThr succThr =
        some (.WARNING, "row_count_mismatch"))
  ∧ rowCountCheck (some 1000) (some 950) 5 1 = some (.WARNING, "row_count_mismatch") := by
  have hc1 : ¬ (|percent_diff 1000 950| ≤ (1 : ℚ)) := by unfold percent_diff; norm_num
  have hc2 : ¬ (|percent_diff 1000 950| > (5 : ℚ)) := by unfold percent_diff; norm_num
  refine ⟨?_, ?_, ?_, by simp [rowCountCheck, hc1, hc2]⟩
  · intro hle
    simp [rowCountCheck, hne, hle]
  · intro h0 hgt
    have hnle : ¬ |percent_diff s t| ≤ succThr := not_le.mpr h0
    by_cases hst : s < t
    · simp [rowCountCheck, hne, hnle, hgt, hst]
    · simp [rowCountCheck, hne, hnle, hgt, hst]
  · intro h1 h2
    have hnle : ¬ |percent_diff s t| ≤ succThr := not_le.mpr h1
    have hngt : ¬ |percent_diff s t| > failThr := not_lt.mpr h2
    simp [rowCountCheck, hne, hnle, hngt]

/-- C1 witness: at sourceCount=1000, targetCount=940 (a 6% deficit) with
thresholds 5%/1%, the amended band theorem applies and yields FAIL; its
middle-band conjunct applies at the 1000/950 scenario and yields WARNING. -/
theorem row_count_severity_bands_witness :
    (rowCountCheck (some 1000) (some 940) 5 1).map Prod.fst = some .FAIL
  ∧ rowCountCheck (some 1000) (some 950) 5 1 = some (.WARNING, "row_count_mismatch") := by
  have h := row_count_severity_bands 1000 940 5 1 (by decide)
  have hf := h.2.1 (by unfold percent_diff; norm_num) (by unfold percent_diff; norm_num)
  have h' := row_count_severity_bands 1000 950 5 1 (by decide)
  have hm := h'.2.2.1 (by unfold percent_diff; norm_num) (by unfold percent_diff; norm_num)
  exact ⟨by simpa using hf, hm⟩

/-- C6: when the counts differ and the percentage difference lies strictly
beyond both thresholds (the failure band), the recorded severity is WARNING
exactly when the target count exceeds the source count, and FAIL exactly
when the target count is at most the source count. -/
theorem row_count_fail_downgrade_iff (s t : Nat) (failThr succThr : ℚ)
    (hne : s ≠ t) (hth : succThr < |percent_diff s t|)
    (hfail : |percent_diff s t| > failThr) :
    ((rowCountCheck (some s) (some t) failThr succThr).map Prod.fst = some .WARNING ↔ s < t)
  ∧ ((rowCountCheck (some s) (some t) failThr succThr).map Prod.fst = some .FAIL ↔ t ≤ s) := by
  have hnle : ¬ |percent_diff s t| ≤ succThr := not_le.mpr hth
  refine ⟨?_, ?_⟩
  · by_cases hst : s < t
    · simp [rowCountCheck, hne, hnle, hfail, hst]
    · simp [rowCountCheck, hne, hnle, hfail, hst]
  · by_cases hst : s < t
    · simp [rowCountCheck, hne, hnle, hfail, hst]
    · simp [rowCountCheck, hne, hnle, hfail, hst]
      omega

/-- C6 witness: at 1000 source rows vs 800 target rows (20% deficit,
thresholds 5%/1%) the failure band applies and, the target not exceeding
the source, the severity stays FAIL. -/
theorem row_count_fail_downgrade_iff_witness :
    (rowCountCheck (some 1000) (some 800) 5 1).map Prod.fst = some .FAIL := by
  have h := row_count_fail_downgrade_iff 1000 800 5 1 (by decide)
    (by unfold percent_diff; norm_num) (by unfold percent_diff; norm_num)
  exact h.2.mpr (by decide)

/-! ## Sample comparison — src/data_class/CompareSampleDataResult.py and
`_compare_sample_data` / `_get_sample_data` in src/DatabaseTransitionValidator.py -/

/-- `CompareSampleDataResult` dataclass (CompareSampleDataResult.py lines
20-46), restricted to the numeric fields its success-rate properties read. -/
structure CompareSampleDataResult where
  sample_size : Option Nat
  source_sample_count : Nat
  target_sample_count : Nat
  source_sample_set_count : Nat
  target_sample_set_count : Nat
  matching_set_record_count : Nat
deriving DecidableEq, Repr

/-- Shared arithmetic of `CompareSampleDataResult.success_rate_of_2_sets`
(CompareSampleDataResult.py lines 48-59), parameterized by the three fields
the property reads: `matching / max(source_set_count, target_set_count) *
100`, and `0.0` when the denominator is zero. -/
def success_rate_from_counts (source_set_count target_set_count matching : Nat) : ℚ :=
  let denominator := max source_set_count target_set_count
  if denominator = 0 then 0
  else ((matching : ℚ) / (denominator : ℚ)) * 100

/-- `CompareSampleDataResult.success_rate_of_2_sets`
(CompareSampleDataResult.py lines 48-59). -/
def CompareSampleDataResult.success_rate_of_2_sets (r : CompareSampleDataResult) : ℚ :=
  success_rate_from_counts r.source_sample_set_count r.target_sample_set_count
    r.matching_set_record_count

/-- `CompareSampleDataResult.interpolated_success_rate_of_tables_from_success_rate_of_2_sets`
(CompareSampleDataResult.py lines 61-72): the set success rate scaled by
`min(source_sample_count, target_sample_count) / max(source_sample_count,
target_sample_count)`, and `0.0` when the denominator is zero. -/
def CompareSampleDataResult.interpolated_success_rate (r : CompareSampleDataResult) : ℚ :=
  let nominator := min r.source_sample_count r.target_sample_count
  let denominator := max r.source_sample_count r.target_sample_count
  if denominator = 0 then 0
  else r.success_rate_of_2_sets * (nominator : ℚ) / (denominator : ℚ)

/-- Set success rate as computed by `_compare_sample_data`
(DatabaseTransitionValidator.py lines 1502-1534): the result's set counts
are the cardinalities of the two key sets and of their intersection, and the
rate is `success_rate_of_2_sets` on those fields.  Keys are modelled by
integers. -/
def setSuccessRate (S T : Finset ℤ) : ℚ :=
  success_rate_from_counts S.card T.card (S ∩ T).card

/-- `_get_row_count` (DatabaseTransitionValidator.py lines 988-1002): a
table is modelled as its list of key values, so the full-table row count is
the list length. -/
def getRowCount (table : List ℤ) : Nat := table.length

/-- `_get_sample_data` (DatabaseTransitionValidator.py lines 1620-1671):
`SELECT TOP sample_size` over the table, with no TOP clause when
`sample_size` is falsy (`None` or `0`).  The unordered SQL result is
modelled as the first `sample_size` rows of the table. -/
def getSampleData (table : List ℤ) (sample_size : Option Nat) : List ℤ :=
  match sample_size with
  | none => table
  | some 0 => table
  | some n => table.take n

/-- `_compare_sample_data` (DatabaseTransitionValidator.py lines 1425-1560),
restricted to the key-set comparison: fetch a sample from each table, build
the key sets (`build_set_from_sample_and_columns` with no transformation
rules, build_set_from_sample_and_columns.py lines 90-94, collapses the
sampled rows into a set), intersect them, and fill the result fields —
`source_sample_count` and `target_sample_count` are the LENGTHS OF THE
FETCHED SAMPLES (lines 1526-1531), not the full-table row counts. -/
def compareSampleData (sourceTable targetTable : List ℤ) (sample_size : Option Nat) :
    CompareSampleDataResult :=
  let source_sample := getSampleData sourceTable sample_size
  let target_sample := getSampleData targetTable sample_size
  let source_keys_set := source_sample.toFinset
  let target_keys_set := target_sample.toFinset
  let matching_keys_set := source_keys_set ∩ target_keys_set
  { sample_size := sample_size
    source_sample_count := source_sample.length
    target_sample_count := target_sample.length
    source_sample_set_count := source_keys_set.card
    target_sample_set_count := target_keys_set.card
    matching_set_record_count := matching_keys_set.card }

/-! ## Theorems for the set success rate (claim C5) -/

/-- C5: for all sampled key sets S and T, the intersection size lies between
0 and min(|S|,|T|); the set success rate lies in [0,100], is 0 when
max(|S|,|T|) = 0, and equals 100 exactly when S = T and both are non-empty. -/
theorem set_success_rate_bounds (S T : Finset ℤ) :
    0 ≤ (S ∩ T).card
  ∧ (S ∩ T).card ≤ min S.card T.card
  ∧ 0 ≤ setSuccessRate S T
  ∧ setSuccessRate S T ≤ 100
  ∧ (max S.card T.card = 0 → setSuccessRate S T = 0)
  ∧ (setSuccessRate S T = 100 ↔ S = T ∧ S.Nonempty ∧ T.Nonempty) := by
  have hinter : (S ∩ T).card ≤ min S.card T.card :=
    le_min (Finset.card_le_card Finset.inter_subset_left)
      (Finset.card_le_card Finset.inter_subset_right)
  by_cases hd : max S.card T.card = 0
  · have hS : S.card = 0 := Nat.le_zero.mp (hd ▸ le_max_left S.card T.card)
    have hT : T.card = 0 := Nat.le_zero.mp (hd ▸ le_max_right S.card T.card)
    have hrate : setSuccessRate S T = 0 := by
      unfold setSuccessRate success_rate_from_counts
      simp [hd]
    refine ⟨Nat.zero_le _, hinter, by rw [hrate], by rw [hrate]; norm_num,
      fun _ => hrate, ?_⟩
    constructor
    · intro h
      rw [hrate] at h
      norm_num at h
    · rintro ⟨-, hne, -⟩
      exact absurd (Finset.card_eq_zero.mp hS) (Finset.nonempty_iff_ne_empty.mp hne)
  · have hdpos : 0 < (max S.card T.card : ℚ) := by
      have : 0 < max S.card T.card := Nat.pos_of_ne_zero hd
      exact_mod_cast this
    have hmle : (S ∩ T).card ≤ max S.card T.card :=
      le_trans hinter (le_trans (min_le_left _ _) (le_max_left _ _))
    have hrate_eq : setSuccessRate S T =
        ((S ∩ T).card : ℚ) / (max S.card T.card : ℚ) * 100 := by
      unfold setSuccessRate success_rate_from_counts
      simp [hd]
    refine ⟨Nat.zero_le _, hinter, ?_, ?_, fun h => absurd h hd, ?_⟩
    · rw [hrate_eq]
      positivity
    · rw [hrate_eq]
      have hle1 : ((S ∩ T).card : ℚ) / (max S.card T.card : ℚ) ≤ 1 := by
        rw [div_le_one hdpos]
        exact_mod_cast hmle
      nlinarith
    · rw [hrate_eq]
      constructor
      · intro h
        have hfrac : ((S ∩ T).card : ℚ) / (max S.card T.card : ℚ) = 1 := by
          field_simp at h
          rw [div_eq_one_iff_eq (ne_of_gt hdpos)]
          linarith
        have hcard : (S ∩ T).card = max S.card T.card := by
          rw [div_eq_one_iff_eq (ne_of_gt hdpos)] at hfrac
          exact_mod_cast hfrac
        have hSeq : (S ∩ T).card = S.card := by
          have h1 : S.card ≤ max S.card T.card := le_max_left _ _
          have h2 : (S ∩ T).card ≤ S.card :=
            Finset.card_le_card Finset.inter_subset_left
          omega
        have hTeq : (S ∩ T).card = T.card := by
          have h1 : T.card ≤ max S.card T.card := le_max_right _ _
          have h2 : (S ∩ T).card ≤ T.card :=
            Finset.card_le_card Finset.inter_subset_right
          omega
        have hSsub : S ⊆ T := by
          have hIS : S ∩ T = S :=
            Finset.eq_of_subset_of_card_le Finset.inter_subset_left (le_of_eq hSeq.symm)
          intro x hx
          rw [← hIS] at hx
          exact Finset.mem_inter.mp hx |>.2
        have hST : S = T := by
          apply Finset.eq_of_subset_of_card_le hSsub
          omega
        have hSne : S.Nonempty := by
          rw [← Finset.card_pos]
          omega
        exact ⟨hST, hSne, hST ▸ hSne⟩
      · rintro ⟨hST, hSne, -⟩
        subst hST
        rw [Finset.inter_self]
        rw [max_self]
        rw [div_self]
        · norm_num
        · have hpos : 0 < S.card := Finset.card_pos.mpr hSne
          have : (0 : ℚ) < (S.card : ℚ) := by exact_mod_cast hpos
          exact ne_of_gt this

/-- C5 witness: for the equal non-empty key sets {1,2} the rate is 100, and
for two empty key sets the zero-denominator guard yields 0. -/
theorem set_success_rate_bounds_witness :
    setSuccessRate ({1, 2} : Finset ℤ) {1, 2} = 100
  ∧ setSuccessRate (∅ : Finset ℤ) ∅ = 0 := by
  have h := set_success_rate_bounds ({1, 2} : Finset ℤ) {1, 2}
  have h0 := set_success_rate_bounds (∅ : Finset ℤ) ∅
  refine ⟨h.2.2.2.2.2.mpr ⟨rfl, ?_, ?_⟩, h0.2.2.2.2.1 (by simp)⟩
  · exact ⟨1, by decide⟩
  · exact ⟨1, by decide⟩

/-! ## Theorems for the interpolated table success rate (claim C3) -/

/-- C3 counterexample: the claim reads the interpolation factor as
min/max of the FULL-TABLE row counts.  For a 4-row source table sampled at
sample size 2 against a 2-row target table, the code's interpolated rate is
100 (it scales by the sample lengths, both 2), while the claimed formula
over the full-table row counts 4 and 2 gives 50. -/
theorem interpolated_rate_full_counts_counterexample :
    (compareSampleData [0, 1, 2, 3] [0, 1] (some 2)).interpolated_success_rate ≠
      (compareSampleData [0, 1, 2, 3] [0, 1] (some 2)).success_rate_of_2_sets *
        (min (getRowCount [0, 1, 2, 3]) (getRowCount [0, 1]) : ℚ) /
        (max (getRowCount [0, 1, 2, 3]) (getRowCount [0, 1]) : ℚ) := by
  have hr : compareSampleData [0, 1, 2, 3] [0, 1] (some 2) =
      { sample_size := some 2, source_sample_count := 2, target_sample_count := 2,
        source_sample_set_count := 2, target_sample_set_count := 2,
        matching_set_record_count := 2 } := by decide
  rw [hr]
  norm_num [CompareSampleDataResult.interpolated_success_rate,
    CompareSampleDataResult.success_rate_of_2_sets, success_rate_from_counts, getRowCount]

/-- C3 amended: the interpolated table success rate equals the set success
rate multiplied by min(sourceSampleCount, targetSampleCount) and divided by
max(sourceSampleCount, targetSampleCount), where those are the numbers of
rows in the samples fetched from each side (each capped at the sample size),
and 0 when the denominator is 0. -/
theorem interpolated_rate_sample_counts (sourceTable targetTable : List ℤ)
    (sample_size : Option Nat) :
    (compareSampleData sourceTable targetTable sample_size).interpolated_success_rate =
      (if max (getSampleData sourceTable sample_size).length
             (getSampleData targetTable sample_size).length = 0 then 0
       else (compareSampleData sourceTable targetTable sample_size).success_rate_of_2_sets *
         ((min (getSampleData sourceTable sample_size).length
               (getSampleData targetTable sample_size).length : Nat) : ℚ) /
         ((max (getSampleData sourceTable sample_size).length
               (getSampleData targetTable sample_size).length : Nat) : ℚ)) := rfl

/-! ## Rule-based column validation — src/DatabaseTransitionValidator.py
`_rule_based_data_validation` lines 1104-1138, with its helpers
src/normalize_item_data_end_with_dot_0.py and src/text_mean_none.py -/

/-- A sampled Python value as the validator sees it: an integer, a string,
or a null (None/NaN).  Floats do not occur in the verified scenarios. -/
inductive PyValue
  | vInt (n : Int)
  | vStr (s : String)
  | vNull
deriving DecidableEq, Repr

/-- Python `str()` on a sampled value; `str(None) = "None"`. -/
def pyStr : PyValue → String
  | .vInt n => toString n
  | .vStr s => s
  | .vNull => "None"

/-- `item_data is None or pd.isna(item_data)` (line 1109): only the null
value is NA; integers and strings never are. -/
def isNoneLike : PyValue → Bool
  | .vNull => true
  | _ => false

/-- Python `str.endswith(".0")`. -/
def pyEndsWithDot0 (s : String) : Bool :=
  match s.data.reverse with
  | '0' :: '.' :: _ => true
  | _ => false

/-- `normalize_item_data_end_with_dot_0`
(normalize_item_data_end_with_dot_0.py lines 6-24): numbers whose string
form ends in ".0" lose that suffix; everything else is `str(item_data)`. -/
def normalize_item_data_end_with_dot_0 (item_data : PyValue) : String :=
  let item_data_is_number := match item_data with | .vInt _ => true | _ => false
  let item_data_str := pyStr item_data
  if item_data_is_number && pyEndsWithDot0 item_data_str
      && item_data_str.data.length > 2 then
    ⟨item_data_str.data.take (item_data_str.data.length - 2)⟩
  else item_data_str

/-- Python `str.lower()` on an ASCII character. -/
def pyLowerChar (c : Char) : Char :=
  if 'A' ≤ c && c ≤ 'Z' then Char.ofNat (c.toNat + 32) else c

/-- Python `str.lower()` (ASCII range, which covers all compared values). -/
def pyLower (s : String) : String := ⟨s.data.map pyLowerChar⟩

/-- Python `str.strip()` whitespace class (ASCII part). -/
def pyIsSpace (c : Char) : Bool :=
  c = ' ' || c = '\t' || c = '\n' || c = '\r'

/-- Python `str.strip()`. -/
def pyStrip (s : String) : String :=
  ⟨((s.data.dropWhile pyIsSpace).reverse.dropWhile pyIsSpace).reverse⟩

/-- `text_mean_none` (text_mean_none.py): the stripped, lowered text is one
of the null-like spellings. -/
def text_mean_none (text_ : String) : Bool :=
  ["none", "nan", "null", "n/a", "na", "", "undefined"].contains
    (pyLower (pyStrip text_))

/-- Mutable state of the per-column scan loop
(DatabaseTransitionValidator.py lines 1105-1130): the `matched_set` and
`non_matched_set` Python sets and the per-column failed counter.  The sets
are modelled as duplicate-free lists in insertion order. -/
structure RuleScanState where
  matched_set : List String
  non_matched_set : List String
  failed_records_count : Nat
deriving DecidableEq, Repr

/-- Python `set.add`. -/
def setAdd (xs : List String) (x : String) : List String :=
  if xs.contains x then xs else xs ++ [x]

/-- One iteration of the value loop (DatabaseTransitionValidator.py lines
1108-1130), in the code's strict order: normalize; pass when null-like and
nulls are allowed; else fail as a duplicate when uniqueness is required and
the normalized value is already in `matched_set`; else fail when the
normalized value does not fully match the pattern (`fullmatch`, modelling
`regex.fullmatch`); else pass. -/
def ruleScanStep (value_can_be_null value_must_be_unique : Bool)
    (fullmatch : String → Bool) (st : RuleScanState) (item_data : PyValue) :
    RuleScanState :=
  let item_data_is_none := isNoneLike item_data
  let normalized_item_data := normalize_item_data_end_with_dot_0 item_data
  if (item_data_is_none || text_mean_none normalized_item_data) && value_can_be_null then
    { st with matched_set := setAdd st.matched_set normalized_item_data }
  else if value_must_be_unique && st.matched_set.contains normalized_item_data then
    { st with non_matched_set := setAdd st.non_matched_set normalized_item_data,
              failed_records_count := st.failed_records_count + 1 }
  else if !(fullmatch normalized_item_data) then
    { st with non_matched_set := setAdd st.non_matched_set normalized_item_data,
              failed_records_count := st.failed_records_count + 1 }
  else
    { st with matched_set := setAdd st.matched_set normalized_item_data }

/-- The whole value loop over a column's data. -/
def scanColumn (value_can_be_null value_must_be_unique : Bool)
    (fullmatch : String → Bool) (column_data : List PyValue) : RuleScanState :=
  column_data.foldl (ruleScanStep value_can_be_null value_must_be_unique fullmatch)
    { matched_set := [], non_matched_set := [], failed_records_count := 0 }

/-- `passed_records_count[column_name] += len(column_data) -
failed_records_count[column_name]` (lines 1136-1138). -/
def passedRecordsCount (value_can_be_null value_must_be_unique : Bool)
    (fullmatch : String → Bool) (column_data : List PyValue) : Nat :=
  column_data.length -
    (scanColumn value_can_be_null value_must_be_unique fullmatch
      column_data).failed_records_count

/-- The default pattern `"^.*$"` installed when a rule has no explicit
pattern (DatabaseTransitionValidator.py lines 1072-1074); `re.fullmatch`
with it accepts every newline-free string, and every string the theorems
evaluate it on is newline-free. -/
def matchAnyPattern : String → Bool := fun _ => true

/-! ## Theorems for the rule-based validator (claim C2) -/

/-- C2 counterexample: for the rule nullable=false, unique=true (and hence
the default catch-all pattern) on values [1, 1, 2, null], the code counts
passed=3 and failed=1 — only the duplicate 1 fails; the null is NOT
rejected, because a null-like value under nullable=false falls through to
the pattern check and `"^.*$"` fullmatches the normalized text "None".  The
claimed passed=2/failed=2 is therefore false. -/
theorem rule_scan_scenario_counterexample :
    (scanColumn false true matchAnyPattern
      [.vInt 1, .vInt 1, .vInt 2, .vNull]).failed_records_count = 1
  ∧ passedRecordsCount false true matchAnyPattern [.vInt 1, .vInt 1, .vInt 2, .vNull] = 3
  ∧ ¬ (passedRecordsCount false true matchAnyPattern [.vInt 1, .vInt 1, .vInt 2, .vNull] = 2
       ∧ (scanColumn false true matchAnyPattern
            [.vInt 1, .vInt 1, .vInt 2, .vNull]).failed_records_count = 2) := by
  refine ⟨by decide, by decide, by decide⟩

/-- C2 amended: on [1, 1, 2, null] with nullable=false, unique=true and the
default pattern the validator counts passed=3 and failed=1 (the null passes
because the catch-all pattern matches its normalized text); and per value
the checks run in the claimed strict order — normalize, then pass if
null-like and nullable, else fail if uniqueness is required and the value
was already recorded in the matched set, else fail if the value does not
fully match the pattern, else pass. -/
theorem rule_scan_order_and_scenario :
    ((scanColumn false true matchAnyPattern
        [.vInt 1, .vInt 1, .vInt 2, .vNull]).failed_records_count = 1
      ∧ passedRecordsCount false true matchAnyPattern
          [.vInt 1, .vInt 1, .vInt 2, .vNull] = 3)
  ∧ (∀ (u : Bool) (fm : String → Bool) (st : RuleScanState) (v : PyValue),
      (isNoneLike v || text_mean_none (normalize_item_data_end_with_dot_0 v)) = true →
      ruleScanStep true u fm st v =
        { st with matched_set :=
            setAdd st.matched_set (normalize_item_data_end_with_dot_0 v) })
  ∧ (∀ (nb u : Bool) (fm : String → Bool) (st : RuleScanState) (v : PyValue),
      ((isNoneLike v || text_mean_none (normalize_item_data_end_with_dot_0 v)) && nb)
        = false →
      (u && st.matched_set.contains (normalize_item_data_end_with_dot_0 v)) = true →
      ruleScanStep nb u fm st v =
        { st with
            non_matched_set := setAdd st.non_matched_set (normalize_item_data_end_with_dot_0 v),
            failed_records_count := st.failed_records_count + 1 })
  ∧ (∀ (nb u : Bool) (fm : String → Bool) (st : RuleScanState) (v : PyValue),
      ((isNoneLike v || text_mean_none (normalize_item_data_end_with_dot_0 v)) && nb)
        = false →
      (u && st.matched_set.contains (normalize_item_data_end_with_dot_0 v)) = false →
      fm (normalize_item_data_end_with_dot_0 v) = false →
      ruleScanStep nb u fm st v =
        { st with
            non_matched_set := setAdd st.non_matched_set (normalize_item_data_end_with_dot_0 v),
            failed_records_count := st.failed_records_count + 1 })
  ∧ (∀ (nb u : Bool) (fm : String → Bool) (st : RuleScanState) (v : PyValue),
      ((isNoneLike v || text_mean_none (normalize_item_data_end_with_dot_0 v)) && nb)
        = false →
      (u && st.matched_set.contains (normalize_item_data_end_with_dot_0 v)) = false →
      fm (normalize_item_data_end_with_dot_0 v) = true →
      ruleScanStep nb u fm st v =
        { st with matched_set :=
            setAdd st.matched_set (normalize_item_data_end_with_dot_0 v) }) := by
  refine ⟨⟨by decide, by decide⟩, ?_, ?_, ?_, ?_⟩
  · intro u fm st v h
    unfold ruleScanStep
    simp only [h, Bool.true_and, Bool.and_true, if_true]
  · intro nb u fm st v h1 h2
    unfold ruleScanStep
    simp only [h1, h2, Bool.false_eq_true, if_false, if_true]
  · intro nb u fm st v h1 h2 h3
    unfold ruleScanStep
    simp only [h1, h2, h3, Bool.false_eq_true, if_false, if_true, Bool.not_false, if_true]
  · intro nb u fm st v h1 h2 h3
    unfold ruleScanStep
    simp only [h1, h2, h3, Bool.false_eq_true, if_false, Bool.not_true, if_true]

/-- C2 witness: the branch lemmas of the order theorem applied at concrete
inputs — a null passes under nullable=true, and a repeated value fails as a
duplicate under unique=true. -/
theorem rule_scan_order_and_scenario_witness :
    ruleScanStep true false matchAnyPattern
      { matched_set := [], non_matched_set := [], failed_records_count := 0 } .vNull =
      { matched_set := ["None"], non_matched_set := [], failed_records_count := 0 }
  ∧ ruleScanStep false true matchAnyPattern
      { matched_set := ["1"], non_matched_set := [], failed_records_count := 0 } (.vInt 1) =
      { matched_set := ["1"], non_matched_set := ["1"], failed_records_count := 1 } := by
  have h := rule_scan_order_and_scenario
  constructor
  · have hb := h.2.1 false matchAnyPattern
      { matched_set := [], non_matched_set := [], failed_records_count := 0 } .vNull
      (by decide)
    rw [hb]
    decide
  · have hb := h.2.2.1 false true matchAnyPattern
      { matched_set := ["1"], non_matched_set := [], failed_records_count := 0 } (.vInt 1)
      (by decide) (by decide)
    rw [hb]
    decide

/-! ## Table mapping construction — src/data_class/TableMapping.py -/

/-- Python truthiness test `not s` for an optional string: `None` and the
empty string are falsy. -/
def strFalsy : Option String → Bool
  | none => true
  | some s => s == ""

/-- Code-point comparison of character lists (Python string ordering). -/
def charListLt : List Char → List Char → Bool
  | [], [] => false
  | [], _ :: _ => true
  | _ :: _, [] => false
  | a :: as, b :: bs =>
    if a.toNat < b.toNat then true
    else if b.toNat < a.toNat then false
    else charListLt as bs

/-- Python string `<`. -/
def pyStrLt (a b : String) : Bool := charListLt a.data b.data

/-- Ascending insertion of a string into a sorted list. -/
def insertAsc (x : String) : List String → List String
  | [] => [x]
  | y :: ys => if pyStrLt x y then x :: y :: ys else y :: insertAsc x ys

/-- First-occurrence deduplication. -/
def pyDedupAux : List String → List String → List String
  | [], _ => []
  | x :: xs, seen =>
    if seen.contains x then pyDedupAux xs seen
    else x :: pyDedupAux xs (x :: seen)

/-- The distinct elements of a list, first occurrences first. -/
def pyDedup (xs : List String) : List String := pyDedupAux xs []

/-- Enumeration of the Python set `set(xs)` (TableMapping.py line 68).
CPython iterates a set in an unspecified, hash-dependent order; the
unordered collection is modelled by its canonical enumeration: the
duplicate-free elements in ascending order. -/
def pySetElems (xs : List String) : List String :=
  (pyDedup xs).foldr insertAsc []

/-- Python `",".join(xs)`. -/
def pyJoinComma : List String → String
  | [] => ""
  | [x] => x
  | x :: y :: ys => x ++ "," ++ pyJoinComma (y :: ys)

/-- The raw constructor arguments of the `TableMapping` dataclass
(TableMapping.py lines 6-29); every field defaults to `None`.  Fields not
read by `__post_init__` or the verified call sites are omitted. -/
structure TableMappingInput where
  key_columns : Option (List String) := none
  source_table : Option String := none
  target_table : Option String := none
  group : Option String := none
  data_transformation_rules : Option (List String) := none
  unique_data_mapping_id : Option String := none
  exclude_columns : Option (List String) := none
  custom_mappings : List (String × String) := []
deriving DecidableEq, Repr

/-- A `TableMapping` after `__post_init__` has run successfully. -/
structure TableMapping where
  key_columns : List String
  source_table : String
  target_table : String
  group : Option String := none
  data_transformation_rules : Option (List String) := none
  unique_data_mapping_id : String
  exclude_columns : List String := []
  custom_mappings : List (String × String) := []
deriving DecidableEq, Repr

/-- `TableMapping.__post_init__` (TableMapping.py lines 31-71): require at
least one of source/target table (ValueError otherwise), default each to
the other, strip the key columns and drop the empty ones, default the
remaining collections, and — when no identifier was supplied — generate
`source|target|",".join(set(key_columns))|",".join(rules)`; joining the
rules list when it is `None` raises a TypeError, modelled as an error
result. -/
def postInit (i : TableMappingInput) : Except String TableMapping :=
  if strFalsy i.source_table && strFalsy i.target_table then
    .error "ValueError: At least one of source_table or target_table must be provided."
  else
    let source_table :=
      if strFalsy i.source_table then i.target_table.getD "" else i.source_table.getD ""
    let target_table :=
      if strFalsy i.target_table then source_table else i.target_table.getD ""
    let key_columns := ((i.key_columns.getD []).map pyStrip).filter (fun c => c != "")
    let exclude_columns := i.exclude_columns.getD []
    if strFalsy i.unique_data_mapping_id then
      match i.data_transformation_rules with
      | none => .error "TypeError: can only join an iterable"
      | some rules =>
        .ok { key_columns, source_table, target_table, group := i.group,
              data_transformation_rules := some rules,
              unique_data_mapping_id :=
                source_table ++ "|" ++ target_table ++ "|"
                  ++ pyJoinComma (pySetElems key_columns)
                  ++ "|" ++ pyJoinComma rules,
              exclude_columns, custom_mappings := i.custom_mappings }
    else
      .ok { key_columns, source_table, target_table, group := i.group,
            data_transformation_rules := i.data_transformation_rules,
            unique_data_mapping_id := i.unique_data_mapping_id.getD "",
            exclude_columns, custom_mappings := i.custom_mappings }

/-! ## Theorems for the generated mapping identifier (claims C8 and C9) -/

/-- C8: when no identifier is supplied and construction succeeds, the
identifier is the deterministic function
`source|target|join(set of trimmed key columns, ascending)|join(rules)` of
the source table, target table, (sorted, deduplicated) key columns and
transformation rules; and any equal input yields a mapping with the same
identifier. -/
theorem table_mapping_id_stable (i : TableMappingInput) (m : TableMapping)
    (hid : strFalsy i.unique_data_mapping_id = true)
    (hok : postInit i = .ok m) :
    (∃ rules, i.data_transformation_rules = some rules ∧
      m.unique_data_mapping_id =
        m.source_table ++ "|" ++ m.target_table ++ "|"
          ++ pyJoinComma (pySetElems m.key_columns)
          ++ "|" ++ pyJoinComma rules)
  ∧ (∀ (i' : TableMappingInput) (m' : TableMapping), i' = i → postInit i' = .ok m' →
      m'.unique_data_mapping_id = m.unique_data_mapping_id) := by
  constructor
  · by_cases hg : (strFalsy i.source_table && strFalsy i.target_table) = true
    · rw [postInit] at hok
      simp [hg] at hok
    · rw [postInit] at hok
      cases hrules : i.data_transformation_rules with
      | none =>
        simp [hg, hid, hrules] at hok
      | some rules =>
        simp [hg, hid, hrules] at hok
        exact ⟨rules, rfl, by rw [← hok]⟩
  · intro i' m' hi hok'
    subst hi
    rw [hok] at hok'
    exact congrArg TableMapping.unique_data_mapping_id (Except.ok.inj hok').symm

/-- A concrete mapping input with no explicit identifier, used to witness C8. -/
def exampleMappingInput : TableMappingInput :=
  { key_columns := some [" b", "a"], source_table := some "S",
    target_table := some "T", data_transformation_rules := some ["r1"] }

/-- C8 witness: the example input builds successfully, the identifier
theorem applies to it, and the generated identifier is `S|T|a,b|r1`. -/
theorem table_mapping_id_stable_witness :
    ∃ m : TableMapping, postInit exampleMappingInput = .ok m
      ∧ m.unique_data_mapping_id = "S|T|a,b|r1"
      ∧ (∃ rules, exampleMappingInput.data_transformation_rules = some rules ∧
          m.unique_data_mapping_id =
            m.source_table ++ "|" ++ m.target_table ++ "|"
              ++ pyJoinComma (pySetElems m.key_columns)
              ++ "|" ++ pyJoinComma rules) := by
  refine ⟨{ key_columns := ["b", "a"], source_table := "S", target_table := "T",
            data_transformation_rules := some ["r1"],
            unique_data_mapping_id := "S|T|a,b|r1" }, ?_, rfl, ?_⟩
  · rfl
  · exact (table_mapping_id_stable exampleMappingInput _ (by decide) (by rfl)).1

/-- C9: constructing a mapping with no explicit identifier and
`data_transformation_rules = None` errors out in the identifier-generation
branch (the unconditional join of the rules list) instead of producing a
mapping; supplying an explicit identifier, or an empty rules list, avoids
the error. -/
theorem table_mapping_none_rules_error (i : TableMappingInput)
    (hid : strFalsy i.unique_data_mapping_id = true)
    (hrules : i.data_transformation_rules = none)
    (htbl : (strFalsy i.source_table && strFalsy i.target_table) = false) :
    (∃ e, postInit i = .error e)
  ∧ (postInit { i with data_transformation_rules := some [] }).isOk = true
  ∧ (∀ uid : String, uid ≠ "" →
      (postInit { i with unique_data_mapping_id := some uid }).isOk = true) := by
  refine ⟨?_, ?_, ?_⟩
  · refine ⟨"TypeError: can only join an iterable", ?_⟩
    rw [postInit]
    simp [htbl, hid, hrules]
  · rw [postInit]
    simp [htbl, hid]
    rfl
  · intro uid huid
    rw [postInit]
    have hs : strFalsy (some uid) = false := by
      simp [strFalsy, huid]
    simp [htbl, hs]
    rfl

/-! ## Per-table data validation dispatch — src/DatabaseTransitionValidator.py
`_validate_data`, lines 628-673 -/

/-- The FAIL result `_validate_data` builds in its `except` branch
(DatabaseTransitionValidator.py lines 654-671) when a task raised `e`:
same mapping identity fields, status FAIL, and a single
`data_validation_error` issue carrying the error text. -/
def failResultFor (mapping : TableMapping) (e : String) : DataMatchValidationResult :=
  { table_name := mapping.source_table
    source_table := mapping.source_table
    target_table := mapping.target_table
    group := mapping.group
    key_columns := mapping.key_columns
    unique_data_mapping_id := mapping.unique_data_mapping_id
    status := .FAIL
    data_match_validation_issues :=
      [{ issue_type := "data_validation_error"
         description := "Data validation failed: " ++ e
         severity := .FAIL }] }

/-- Harvesting one future (`future.result()` inside try/except, lines
642-671): a normal task result is appended as is; a raised exception is
caught at the task boundary and replaced by the FAIL result. -/
def harvest (task : TableMapping → Except String DataMatchValidationResult)
    (mapping : TableMapping) : DataMatchValidationResult :=
  match task mapping with
  | .ok r => r
  | .error e => failResultFor mapping e

/-- `_validate_data` (DatabaseTransitionValidator.py lines 628-673): submit
one task per mapping to the worker pool and collect one result per mapping.
A task is modelled as a function that either returns a result or raises
(`Except.error`).  The pool's completion order is nondeterministic and the
code appends in completion order; the collected results are modelled in
submission order, a permutation — the verified properties are
order-insensitive.  The function is total: no task error escapes it. -/
def validateData (task : TableMapping → Except String DataMatchValidationResult)
    (mappings : List TableMapping) : List DataMatchValidationResult :=
  mappings.map (harvest task)

/-! ## Theorems for task-boundary error isolation (claim C7) -/

/-- C7: for every set of table mappings and every task behaviour, the run
completes with exactly one result per mapping (no task-local error
propagates as an exception — `validateData` is total); a mapping whose task
raised contributes the FAIL result that carries the error text among its
issues; a mapping whose task succeeded contributes its own result. -/
theorem validate_data_error_isolation
    (task : TableMapping → Except String DataMatchValidationResult)
    (mappings : List TableMapping) :
    (validateData task mappings).length = mappings.length
  ∧ (∀ m e, m ∈ mappings → task m = .error e →
      failResultFor m e ∈ validateData task mappings)
  ∧ (∀ m r, m ∈ mappings → task m = .ok r → r ∈ validateData task mappings)
  ∧ (∀ m e, (failResultFor m e).status = .FAIL
      ∧ { issue_type := "data_validation_error",
          description := "Data validation failed: " ++ e,
          severity := ValidationStatus.FAIL : ValidationIssue }
          ∈ (failResultFor m e).data_match_validation_issues) := by
  refine ⟨List.length_map _ _, ?_, ?_, ?_⟩
  · intro m e hm hme
    have hmem : harvest task m ∈ validateData task mappings :=
      List.mem_map_of_mem (harvest task) hm
    rw [harvest, hme] at hmem
    exact hmem
  · intro m r hm hmr
    have hmem : harvest task m ∈ validateData task mappings :=
      List.mem_map_of_mem (harvest task) hm
    rw [harvest, hmr] at hmem
    exact hmem
  · intro m e
    exact ⟨rfl, List.mem_singleton.mpr rfl⟩

/-- A small demo mapping used to witness C7. -/
def demoMapping (name : String) : TableMapping :=
  { key_columns := ["id"], source_table := name, target_table := name,
    unique_data_mapping_id := name }

/-- A successful demo result used to witness C7. -/
def demoOkResult : DataMatchValidationResult :=
  { table_name := "B", source_table := "B", target_table := "B",
    key_columns := ["id"], unique_data_mapping_id := "B", status := .PASS }

/-- A demo task behaviour that raises on table A and succeeds on others. -/
def demoTask (m : TableMapping) : Except String DataMatchValidationResult :=
  if m.source_table == "A" then .error "boom" else .ok demoOkResult

/-- C7 witness: with two mappings of which the first raises, the run still
returns two results, containing the FAIL result for the raising mapping
(with the error text in its issue) and the normal result for the other. -/
theorem validate_data_error_isolation_witness :
    (validateData demoTask [demoMapping "A", demoMapping "B"]).length = 2
  ∧ failResultFor (demoMapping "A") "boom"
      ∈ validateData demoTask [demoMapping "A", demoMapping "B"]
  ∧ demoOkResult ∈ validateData demoTask [demoMapping "A", demoMapping "B"]
  ∧ (failResultFor (demoMapping "A") "boom").status = .FAIL := by
  have h := validate_data_error_isolation demoTask [demoMapping "A", demoMapping "B"]
  refine ⟨h.1, ?_, ?_, (h.2.2.2 (demoMapping "A") "boom").1⟩
  · exact h.2.1 (demoMapping "A") "boom" (by simp) (by rfl)
  · exact h.2.2.1 (demoMapping "B") demoOkResult (by simp) (by rfl)

/-- A mapping input that names only a source table, used to witness C9. -/
def demoInputS : TableMappingInput := { source_table := some "S" }

/-- C9 witness: for the input that only names a source table, construction
with `data_transformation_rules = None` and no explicit identifier errors
out, while an empty rules list or an explicit identifier succeeds. -/
theorem table_mapping_none_rules_error_witness :
    (∃ e, postInit demoInputS = .error e)
  ∧ (postInit { demoInputS with data_transformation_rules := some [] }).isOk = true
  ∧ (postInit { demoInputS with unique_data_mapping_id := some "X" }).isOk = true := by
  have h := table_mapping_none_rules_error demoInputS (by decide) rfl (by decide)
  exact ⟨h.1, h.2.1, h.2.2 "X" (by decide)⟩
